import Mathlib

/-!
# GoalGrid habit-tracking client: a shallow embedding

A shallow embedding of the client-side session / dashboard-orchestration
layer of `src/frontend/src/App.js`, covering:

* `showNotification` — the shared notification helper;
* `HabitCard.handleTrack` — per-habit-type tracking payload construction;
* `Dashboard.handleTrackHabit` — track dispatch + refresh + success
  notification;
* `HabitForm.handleSubmit` — the create/update payload construction;
* `AnalyticsChart` — the pure analytics normalizer;
* `Dashboard.fetchAllData` — the four-way concurrent dashboard refresh;
* `Dashboard.checkReminders` — one reminder tick;
* `AuthProvider` bootstrap (the mount effect plus `fetchUser`).

Asynchronous I/O is modelled by passing each fetch's settled result as an
explicit `Except` argument; browser capabilities (notification permission)
are an explicit environment record.  JavaScript numbers are modelled as `ℚ`,
with `Option ℚ` where `NaN` matters (`none` = `NaN`); `parseFloat` and
`Number` are modelled on the decimal-literal subset the application feeds
them (optional sign, digits, at most one decimal point, surrounding
whitespace; no exponents or hex literals, which no caller in this file
produces).
-/

namespace GoalGrid

/-! ## JavaScript numeric-string parsing -/

/-- Numeric value of a list of decimal digit characters. -/
def digitsVal (l : List Char) : Nat :=
  l.foldl (fun a c => 10 * a + (c.toNat - 48)) 0

/-- Value of a fractional digit string, e.g. `['2','5']` for `.25`. -/
def fracVal (l : List Char) : ℚ :=
  (digitsVal l : ℚ) / (10 ^ l.length)

/-- Reads an unsigned decimal literal (digits, optionally a decimal point
and more digits) from the front of `cs`, returning its value and the
unconsumed remainder; `none` when no digit is found (JS `NaN`). -/
def readUnsigned (cs : List Char) : Option (ℚ × List Char) :=
  let intPart := cs.takeWhile Char.isDigit
  let rest₁ := cs.dropWhile Char.isDigit
  match rest₁ with
  | '.' :: r =>
    let fracPart := r.takeWhile Char.isDigit
    let rest₂ := r.dropWhile Char.isDigit
    if intPart.isEmpty && fracPart.isEmpty then none
    else some ((digitsVal intPart : ℚ) + fracVal fracPart, rest₂)
  | _ =>
    if intPart.isEmpty then none
    else some ((digitsVal intPart : ℚ), rest₁)

/-- Reads an optionally signed decimal literal from the front of `cs`. -/
def readSigned (cs : List Char) : Option (ℚ × List Char) :=
  match cs with
  | '-' :: r => (readUnsigned r).map (fun p => (-p.1, p.2))
  | '+' :: r => readUnsigned r
  | _ => readUnsigned cs

/-- JS `parseFloat`: skip leading whitespace, parse the longest signed
decimal prefix; `none` models `NaN`. -/
def parseFloat (s : String) : Option ℚ :=
  (readSigned (s.toList.dropWhile Char.isWhitespace)).map Prod.fst

/-- Strip whitespace from both ends of a character list. -/
def trimChars (cs : List Char) : List Char :=
  ((cs.dropWhile Char.isWhitespace).reverse.dropWhile Char.isWhitespace).reverse

/-- JS `Number` applied to a character list: the trimmed-empty string is
`0`; otherwise the whole trimmed string must be a signed decimal literal;
`none` models `NaN`. -/
def jsNumberChars (cs : List Char) : Option ℚ :=
  match trimChars cs with
  | [] => some 0
  | t =>
    match readSigned t with
    | some (q, []) => some q
    | _ => none

/-- JS `Number(s)` on the decimal subset. -/
def jsNumber (s : String) : Option ℚ :=
  jsNumberChars s.toList

/-- JS `x || d` on a number `x` that may be `NaN` (`none`): both `NaN`
and `0` are falsy and yield the default. -/
def jsOrDefault (x : Option ℚ) (d : ℚ) : ℚ :=
  match x with
  | none => d
  | some q => if q = 0 then d else q

/-- JS `String.prototype.split(':')` on a character list. -/
def splitColon : List Char → List (List Char)
  | [] => [[]]
  | c :: cs =>
    if c = ':' then [] :: splitColon cs
    else
      match splitColon cs with
      | [] => [[c]]
      | p :: ps => (c :: p) :: ps

/-! ## Data model (§3 of the spec, field names from `App.js`) -/

/-- The `habit_type` enumeration; the source uses the string values
`yes_no` (the spec calls this type "binary"), `quantifiable` and
`time_based`. -/
inductive HabitType
  | yes_no
  | quantifiable
  | time_based
  deriving DecidableEq, Repr

structure Habit where
  id : String
  name : String
  description : Option String
  habit_type : HabitType
  target_value : Option ℚ
  target_unit : Option String
  category : Option String
  color : String
  reminder_enabled : Bool
  reminder_time : Option String
  deriving DecidableEq, Repr

structure DailyRecord where
  habit_id : String
  date : String
  completed : Bool
  value : Option ℚ
  deriving DecidableEq, Repr

/-- One dashboard entry: a habit joined with today's tracking state
(`habitData` as destructured by `HabitCard`). -/
structure DashboardEntry where
  habit : Habit
  today_record : Option DailyRecord
  is_completed_today : Bool
  deriving DecidableEq, Repr

/-! ## Notification gateway (`showNotification`, lines 82–86) -/

/-- The browser notification environment: whether the `Notification`
capability exists (`'Notification' in window`) and the permission string
(`"default"`, `"granted"` or `"denied"`). -/
structure NotifEnv where
  hasNotificationCapability : Bool
  permission : String
  deriving DecidableEq, Repr

/-- A platform notification as constructed by `new Notification(...)`. -/
structure PlatformNotification where
  title : String
  body : String
  icon : String
  tag : Option String
  deriving DecidableEq, Repr

/-- `showNotification(title, body, options)`: constructs a platform
notification only when the capability exists and permission is
`"granted"`; otherwise it does nothing (`none`).  The only option the
source ever passes is a `tag`. -/
def showNotification (env : NotifEnv) (title body : String)
    (tag : Option String) : Option PlatformNotification :=
  if env.hasNotificationCapability && env.permission == "granted" then
    some { title := title, body := body, icon := "/favicon.ico", tag := tag }
  else
    none

/-! ## Habit tracking (`HabitCard.handleTrack`, lines 417–430, and
`Dashboard.handleTrackHabit`, lines 644–654) -/

/-- The body posted to `habits/:id/track`. -/
structure TrackPayload where
  completed : Bool
  value : Option ℚ
  deriving DecidableEq, Repr

/-- `HabitCard.handleTrack`: for a `yes_no` habit, toggle `completed`
relative to `is_completed_today` with no value field; otherwise prompt the
caller for a value (`promptResult`, `none` when the prompt is cancelled)
and, unless cancelled, send `completed: true` with
`parseFloat(value) || 0`.  Returns the payload passed to `onTrack`, or
`none` when no backend call is made. -/
def handleTrack (habitData : DashboardEntry) (promptResult : Option String) :
    Option TrackPayload :=
  match habitData.habit.habit_type with
  | .yes_no => some { completed := !habitData.is_completed_today, value := none }
  | _ =>
    match promptResult with
    | none => none
    | some v =>
      some { completed := true, value := some (jsOrDefault (parseFloat v) 0) }

/-- Outcome of `Dashboard.handleTrackHabit`: whether `fetchAllData` was
triggered, the success notification handed to the gateway, and any logged
error. -/
structure TrackOutcome where
  refreshed : Bool
  successNotification : Option PlatformNotification
  errorLogged : Option String
  deriving DecidableEq, Repr

/-- `Dashboard.handleTrackHabit`: posts the payload; on success refreshes
and shows the success notification (best-effort through the gateway); on
failure only logs. -/
def handleTrackHabit (_payload : TrackPayload)
    (backendResult : Except String Unit) (env : NotifEnv) : TrackOutcome :=
  match backendResult with
  | .ok _ =>
    { refreshed := true
      successNotification :=
        showNotification env "Habit Tracked!" "Great job staying consistent! 🎉" none
      errorLogged := none }
  | .error e =>
    { refreshed := false, successNotification := none, errorLogged := some e }

/-! ## Habit create/update payload (`HabitForm.handleSubmit`, lines 262–267) -/

/-- The form state held by `HabitForm` (all text inputs are strings). -/
structure FormData where
  name : String
  description : String
  habit_type : String
  target_value : String
  target_unit : String
  category : String
  color : String
  reminder_enabled : Bool
  reminder_time : String
  deriving DecidableEq, Repr

/-- The `target_value` slot of the payload handed to `onSave`: either the
field is absent, or it is the untouched string, or it is a JS number
(`none` = `NaN`). -/
inductive TVField
  | absent
  | str (s : String)
  | num (q : Option ℚ)
  deriving DecidableEq, Repr

/-- The object handed to `onSave` (then posted to `habits` / put to
`habits/:id`). -/
structure HabitPayload where
  name : String
  description : String
  habit_type : String
  target_value : TVField
  target_unit : String
  category : String
  color : String
  reminder_enabled : Bool
  reminder_time : String
  deriving DecidableEq, Repr

/-- `HabitForm.handleSubmit`: spreads the form data and, when
`target_value` is truthy (a non-empty string), replaces it by
`parseFloat(target_value)` — which is `NaN` (`num none`) when the parse
fails.  A falsy (empty) `target_value` is left as the string. -/
def handleSubmit (fd : FormData) : HabitPayload :=
  { name := fd.name
    description := fd.description
    habit_type := fd.habit_type
    target_value :=
      if fd.target_value ≠ "" then .num (parseFloat fd.target_value)
      else .str fd.target_value
    target_unit := fd.target_unit
    category := fd.category
    color := fd.color
    reminder_enabled := fd.reminder_enabled
    reminder_time := fd.reminder_time }

/-! ## Analytics normalizer (`AnalyticsChart`, lines 489–524) -/

/-- One point of `analyticsData.chart_data`. -/
structure DayPoint where
  date : String
  completion_rate : ℚ
  deriving DecidableEq, Repr

/-- One rendered bar: its CSS height percentage and colour. -/
structure ChartBar where
  height : ℚ
  color : String
  deriving DecidableEq, Repr

/-- The render result: the explicit no-data element, or the bar list. -/
inductive ChartResult
  | noData
  | bars (l : List ChartBar)
  deriving DecidableEq, Repr

/-- The colour band of a bar: `#10B981` (green) for rate ≥ 80,
`#F59E0B` (amber) for rate ≥ 60, `#EF4444` (red) otherwise. -/
def barColor (rate : ℚ) : String :=
  if rate ≥ 80 then "#10B981"
  else if rate ≥ 60 then "#F59E0B"
  else "#EF4444"

/-- `Math.max(...data.map(d => d.completion_rate))` for the non-empty
series `d :: ds`. -/
def chartMaxRate (d : DayPoint) (ds : List DayPoint) : ℚ :=
  ds.foldl (fun a p => max a p.completion_rate) d.completion_rate

/-- `Math.min(...data.map(d => d.completion_rate))` for the non-empty
series `d :: ds`. -/
def chartMinRate (d : DayPoint) (ds : List DayPoint) : ℚ :=
  ds.foldl (fun a p => min a p.completion_rate) d.completion_rate

/-- `const range = maxRate - minRate || 1`: a zero difference is falsy
and is replaced by 1. -/
def chartRange (d : DayPoint) (ds : List DayPoint) : ℚ :=
  if chartMaxRate d ds - chartMinRate d ds = 0 then 1
  else chartMaxRate d ds - chartMinRate d ds

/-- `data.slice(-7)`. -/
def takeLast (n : Nat) (l : List α) : List α :=
  l.drop (l.length - n)

/-- One bar: `height = ((rate - minRate) / range) * 100`, rendered as
`Math.max(height, 5)` percent, coloured by the rate band. -/
def chartBarOf (minRate range : ℚ) (day : DayPoint) : ChartBar :=
  { height := max (((day.completion_rate - minRate) / range) * 100) 5
    color := barColor day.completion_rate }

/-- `AnalyticsChart({data})`: the explicit no-data element on an empty
(or missing) series, otherwise one bar per entry of `data.slice(-7)`,
normalized against the min/max of the whole series. -/
def analyticsChart : List DayPoint → ChartResult
  | [] => .noData
  | d :: ds =>
    .bars ((takeLast 7 (d :: ds)).map
      (chartBarOf (chartMinRate d ds) (chartRange d ds)))

/-! ## Dashboard refresh (`Dashboard.fetchAllData`, lines 549–568) -/

/-- The four dashboard state slots plus the loading flag. -/
structure DashState (α β γ δ : Type) where
  dashboardData : Option α
  analyticsData : Option β
  streakData : Option γ
  slackStatus : Option δ
  loading : Bool
  deriving DecidableEq, Repr

/-- `Promise.all` on four settled results: the first error (if any) wins,
otherwise the tuple of values. -/
def promiseAll4 {ε α β γ δ : Type} :
    Except ε α → Except ε β → Except ε γ → Except ε δ →
      Except ε (α × β × γ × δ)
  | .error e, _, _, _ => .error e
  | .ok _, .error e, _, _ => .error e
  | .ok _, .ok _, .error e, _ => .error e
  | .ok _, .ok _, .ok _, .error e => .error e
  | .ok a, .ok b, .ok c, .ok d => .ok (a, b, c, d)

/-- `Dashboard.fetchAllData` with the four fetches' settled results as
inputs: on full success every slot is replaced; on any failure the caught
error is logged (returned) and no slot is touched; `setLoading(false)`
runs in both branches (the `finally`). -/
def fetchAllData {ε α β γ δ : Type} (st : DashState α β γ δ)
    (r₁ : Except ε α) (r₂ : Except ε β) (r₃ : Except ε γ) (r₄ : Except ε δ) :
    DashState α β γ δ × Option ε :=
  match promiseAll4 r₁ r₂ r₃ r₄ with
  | .ok (a, b, c, d) =>
    ({ dashboardData := some a, analyticsData := some b, streakData := some c
       slackStatus := some d, loading := false }, none)
  | .error e => ({ st with loading := false }, some e)

/-! ## Reminder tick (`Dashboard.checkReminders`, lines 579–606) -/

/-- One entry of the `notifications/reminders` response. -/
structure Reminder where
  habit_id : String
  name : String
  reminder_time : Option String
  deriving DecidableEq, Repr

/-- Whether one pending reminder fires at local time `h:m`: its
`reminder_time` must be truthy (present and non-empty), and
`split(':').map(Number)` must yield exactly the current hour and minute
in its first two slots (a `NaN` or missing slot compares unequal, as
with JS `===`). -/
def timeMatches (r : Reminder) (h m : Nat) : Bool :=
  match r.reminder_time with
  | none => false
  | some s =>
    if s = "" then false
    else
      let parts := splitColon s.toList
      ((parts.get? 0).bind jsNumberChars == some (h : ℚ))
        && ((parts.get? 1).bind jsNumberChars == some (m : ℚ))

/-- The gateway invocation made for a firing reminder:
`showNotification('Habit Reminder', 'Time to work on: ' + name,
{tag: habit_id})` as its (title, body, tag) arguments. -/
def mkReminderCall (r : Reminder) : String × String × Option String :=
  ("Habit Reminder", "Time to work on: " ++ r.name, some r.habit_id)

/-- The `forEach` over pending reminders: one gateway call per reminder
whose time matches the current hour and minute. -/
def reminderLoop (h m : Nat) : List Reminder → List (String × String × Option String)
  | [] => []
  | r :: rs =>
    (if timeMatches r h m then [mkReminderCall r] else []) ++ reminderLoop h m rs

/-- Outcome of one reminder tick: the gateway invocations, the platform
notifications actually created, the new `reminders` state (unchanged on
fetch failure), and any logged error. -/
structure RemindersTickOutcome where
  gatewayCalls : List (String × String × Option String)
  fired : List PlatformNotification
  remindersSet : Option (List Reminder)
  errorLogged : Option String
  deriving DecidableEq, Repr

/-- `Dashboard.checkReminders` with the reminder fetch's settled result
and the current local hour/minute as inputs. -/
def checkReminders (fetchResult : Except String (List Reminder))
    (h m : Nat) (env : NotifEnv) : RemindersTickOutcome :=
  match fetchResult with
  | .error e =>
    { gatewayCalls := [], fired := [], remindersSet := none, errorLogged := some e }
  | .ok rs =>
    { gatewayCalls := reminderLoop h m rs
      fired := (reminderLoop h m rs).filterMap
        (fun c => showNotification env c.1 c.2.1 c.2.2)
      remindersSet := some rs
      errorLogged := none }

/-! ## Session bootstrap (`AuthProvider`, lines 19–48) -/

structure User where
  id : String
  name : String
  email : String
  deriving DecidableEq, Repr

/-- The authentication-relevant client state: the persisted token
(`localStorage 'token'`), the ambient request header
(`axios.defaults.headers.common.Authorization`), the identity, and the
gating `loading` flag. -/
structure AuthState where
  storedToken : Option String
  authHeader : Option String
  user : Option User
  loading : Bool
  deriving DecidableEq, Repr

/-- `fetchUser`: on success stores the identity; on failure removes the
persisted token and deletes the ambient Authorization header.  Either
way `loading` ends false (the `finally`). -/
def fetchUserStep (st : AuthState) (result : Except String User) : AuthState :=
  match result with
  | .ok u => { st with user := some u, loading := false }
  | .error _ => { st with storedToken := none, authHeader := none, loading := false }

/-- The `AuthProvider` mount effect: read the persisted token; if present,
attach it as a Bearer header and run `fetchUser` (whose settled result is
the second argument); if absent, just stop loading. -/
def authBootstrap (storedToken : Option String)
    (fetchResult : Except String User) : AuthState :=
  let st₀ : AuthState :=
    { storedToken := storedToken, authHeader := none, user := none, loading := true }
  match storedToken with
  | some t =>
    fetchUserStep { st₀ with authHeader := some ("Bearer " ++ t) } fetchResult
  | none => { st₀ with loading := false }

/-! ## Concrete fixtures -/

def waterHabit : Habit :=
  { id := "h1", name := "Drink Water", description := none
    habit_type := .quantifiable, target_value := some 8
    target_unit := some "glasses", category := none, color := "#8B5CF6"
    reminder_enabled := false, reminder_time := none }

def meditateHabit : Habit :=
  { id := "h2", name := "Meditate", description := none
    habit_type := .yes_no, target_value := none, target_unit := none
    category := none, color := "#10B981", reminder_enabled := true
    reminder_time := some "09:00" }

def quantEntry : DashboardEntry :=
  { habit := waterHabit, today_record := none, is_completed_today := false }

def binaryEntry : DashboardEntry :=
  { habit := meditateHabit, today_record := none, is_completed_today := false }

def readingForm : FormData :=
  { name := "Read", description := "", habit_type := "quantifiable"
    target_value := "abc", target_unit := "pages", category := ""
    color := "#8B5CF6", reminder_enabled := false, reminder_time := "09:00" }

def dashStart : DashState Nat Nat Nat Nat :=
  { dashboardData := some 10, analyticsData := some 20, streakData := none
    slackStatus := none, loading := false }

/-! ## Helper lemmas -/

lemma jsOrDefault_some_zero (q : ℚ) : jsOrDefault (some q) 0 = q := by
  simp only [jsOrDefault]
  split <;> simp_all

lemma handleTrack_nonBinary_some (e : DashboardEntry)
    (h : e.habit.habit_type ≠ .yes_no) (v : String) :
    handleTrack e (some v)
      = some { completed := true, value := some (jsOrDefault (parseFloat v) 0) } := by
  cases hty : e.habit.habit_type with
  | yes_no => exact absurd hty h
  | quantifiable => simp [handleTrack, hty]
  | time_based => simp [handleTrack, hty]

lemma handleTrack_nonBinary_none (e : DashboardEntry)
    (h : e.habit.habit_type ≠ .yes_no) :
    handleTrack e none = none := by
  cases hty : e.habit.habit_type with
  | yes_no => exact absurd hty h
  | quantifiable => simp [handleTrack, hty]
  | time_based => simp [handleTrack, hty]

/-! ## C5: binary tracking toggles -/

/-- C5: for a habit whose type is binary (`yes_no`), `handleTrack`
dispatches `completed = !is_completed_today` with no numeric value field,
whatever the prompt input and whatever today's record holds. -/
theorem handleTrack_binary_toggles (e : DashboardEntry) (input : Option String)
    (h : e.habit.habit_type = .yes_no) :
    handleTrack e input
      = some { completed := !e.is_completed_today, value := none } := by
  simp [handleTrack, h]

/-- C5 witness: tracking the concrete binary entry (not completed today)
dispatches `completed = true` and no value. -/
theorem handleTrack_binary_toggles_witness :
    handleTrack binaryEntry (some "whatever")
      = some { completed := true, value := none } :=
  handleTrack_binary_toggles binaryEntry (some "whatever") rfl

/-! ## C2: non-binary tracking with a non-numeric input -/

/-- C2 counterexample: on a quantifiable habit the non-numeric input
`"abc"` does not abort the operation; the backend is called with
`{completed: true, value: 0}`. -/
theorem handleTrack_nonNumeric_counterexample :
    handleTrack quantEntry (some "abc")
        = some { completed := true, value := some 0 }
      ∧ handleTrack quantEntry (some "abc") ≠ none := by
  constructor
  · simp [handleTrack, quantEntry, waterHabit, jsOrDefault, parseFloat,
      readSigned, readUnsigned]
  · simp [handleTrack, quantEntry, waterHabit]

/-- C2 amended: on a habit whose type is not binary, `handleTrack` aborts
without a backend call only when the prompt input is null; a numeric
string is dispatched with its parsed float, and a non-numeric string is
dispatched with value 0. -/
theorem handleTrack_nonBinary_amended (e : DashboardEntry)
    (h : e.habit.habit_type ≠ .yes_no) :
    handleTrack e none = none
    ∧ (∀ s q, parseFloat s = some q →
        handleTrack e (some s) = some { completed := true, value := some q })
    ∧ (∀ s, parseFloat s = none →
        handleTrack e (some s) = some { completed := true, value := some 0 }) := by
  refine ⟨handleTrack_nonBinary_none e h, ?_, ?_⟩
  · intro s q hq
    rw [handleTrack_nonBinary_some e h s, hq, jsOrDefault_some_zero]
  · intro s hs
    rw [handleTrack_nonBinary_some e h s, hs]
    rfl

/-- C2 amended, witness: on the concrete quantifiable entry, a null input
aborts, `"3.5"` is dispatched as 7/2, and `"abc"` is dispatched as 0. -/
theorem handleTrack_nonBinary_amended_witness :
    handleTrack quantEntry none = none
    ∧ handleTrack quantEntry (some "3.5")
        = some { completed := true, value := some (7 / 2) }
    ∧ handleTrack quantEntry (some "abc")
        = some { completed := true, value := some 0 } := by
  have h := handleTrack_nonBinary_amended quantEntry (by decide)
  refine ⟨h.1, ?_, h.2.2 "abc" (by simp [parseFloat, readSigned, readUnsigned])⟩
  exact h.2.1 "3.5" (7 / 2)
    (by simp [parseFloat, readSigned, readUnsigned, digitsVal, fracVal]; norm_num)

/-! ## C3: invalid numeric input defaults to zero -/

/-- C3: on a quantifiable or time-based habit, a non-null but unparseable
input does not abort — the dispatched payload is
`{completed: true, value: 0}` — and only a null input aborts without a
backend call. -/
theorem handleTrack_invalid_defaults_zero (e : DashboardEntry)
    (h : e.habit.habit_type = .quantifiable ∨ e.habit.habit_type = .time_based) :
    (∀ s, parseFloat s = none →
      handleTrack e (some s) = some { completed := true, value := some 0 })
    ∧ handleTrack e none = none := by
  have hne : e.habit.habit_type ≠ .yes_no := by
    rcases h with hty | hty <;> simp [hty]
  constructor
  · intro s hs
    rw [handleTrack_nonBinary_some e hne s, hs]
    rfl
  · exact handleTrack_nonBinary_none e hne

/-- C3 witness: on the concrete quantifiable entry, the unparseable input
`"oops"` is dispatched as value 0 and a null input aborts. -/
theorem handleTrack_invalid_defaults_zero_witness :
    handleTrack quantEntry (some "oops")
        = some { completed := true, value := some 0 }
    ∧ handleTrack quantEntry none = none := by
  have h := handleTrack_invalid_defaults_zero quantEntry (Or.inl rfl)
  exact ⟨h.1 "oops" (by simp [parseFloat, readSigned, readUnsigned]), h.2⟩

/-! ## C6: unparseable target_value in create/update -/

/-- C6 counterexample: submitting the concrete form whose `target_value`
is the unparseable string `"abc"` produces a payload whose `target_value`
field is the number `NaN` — present, not absent. -/
theorem handleSubmit_nan_counterexample :
    (handleSubmit readingForm).target_value = TVField.num none
    ∧ TVField.num none ≠ TVField.absent := by
  constructor
  · simp [handleSubmit, readingForm, parseFloat, readSigned, readUnsigned]
  · simp

/-- C6 amended: whenever `target_value` is present (non-empty) but fails
to parse as a number, the dispatched payload carries `target_value = NaN`
— the field is sent, not omitted. -/
theorem handleSubmit_nan_sent (fd : FormData) (h₁ : fd.target_value ≠ "")
    (h₂ : parseFloat fd.target_value = none) :
    (handleSubmit fd).target_value = TVField.num none := by
  simp [handleSubmit, h₁, h₂]

/-- C6 amended, witness: the concrete form with `target_value = "abc"`. -/
theorem handleSubmit_nan_sent_witness :
    (handleSubmit readingForm).target_value = TVField.num none :=
  handleSubmit_nan_sent readingForm (by simp [readingForm])
    (by simp [readingForm, parseFloat, readSigned, readUnsigned])

/-! ## C7: bootstrap with a rejected token -/

/-- C7: bootstrapping with a stored token that the identity fetch rejects
ends unauthenticated — no user, the token purged from persistent storage,
no Authorization header attached to subsequent requests, and loading
finished. -/
theorem authBootstrap_rejected_token (t e : String) :
    authBootstrap (some t) (.error e)
      = { storedToken := none, authHeader := none, user := none,
          loading := false } := by
  simp [authBootstrap, fetchUserStep]

/-! ## C10: the notification helper is a safe no-op when unavailable -/

/-- C10: `showNotification` creates a platform notification exactly when
the `Notification` capability exists and permission is `"granted"`; in
the `"default"` or `"denied"` states, or without the capability, it does
nothing; and the outcome of the tracking operation (refresh and error
state) is independent of the notification environment. -/
theorem showNotification_safety (env env₂ : NotifEnv) (title body : String)
    (tag : Option String) (cap : Bool) (p : String) (payload : TrackPayload)
    (res : Except String Unit) :
    ((showNotification env title body tag).isSome
        = (env.hasNotificationCapability && env.permission == "granted"))
    ∧ showNotification
        { hasNotificationCapability := cap, permission := "default" }
        title body tag = none
    ∧ showNotification
        { hasNotificationCapability := cap, permission := "denied" }
        title body tag = none
    ∧ showNotification
        { hasNotificationCapability := false, permission := p }
        title body tag = none
    ∧ (handleTrackHabit payload res env).refreshed
        = (handleTrackHabit payload res env₂).refreshed
    ∧ (handleTrackHabit payload res env).errorLogged
        = (handleTrackHabit payload res env₂).errorLogged := by
  refine ⟨?_, ?_, ?_, ?_, ?_, ?_⟩
  · cases h : env.hasNotificationCapability && env.permission == "granted" <;>
      simp [showNotification, h]
  · simp [showNotification]
  · simp [showNotification]
  · simp [showNotification]
  · cases res <;> rfl
  · cases res <;> rfl

/-! ## C1: all-or-nothing dashboard refresh -/

/-- C1: `fetchAllData` over the four settled fetch results replaces the
view all-or-nothing — if any of the four fetches fails, every previously
held slice is unchanged and an error is reported; if all four succeed,
all four slices are replaced. -/
theorem fetchAllData_all_or_nothing {ε α β γ δ : Type} (st : DashState α β γ δ)
    (r₁ : Except ε α) (r₂ : Except ε β) (r₃ : Except ε γ) (r₄ : Except ε δ) :
    (((∃ e, r₁ = .error e) ∨ (∃ e, r₂ = .error e) ∨ (∃ e, r₃ = .error e)
        ∨ (∃ e, r₄ = .error e)) →
      ((fetchAllData st r₁ r₂ r₃ r₄).1.dashboardData = st.dashboardData
        ∧ (fetchAllData st r₁ r₂ r₃ r₄).1.analyticsData = st.analyticsData
        ∧ (fetchAllData st r₁ r₂ r₃ r₄).1.streakData = st.streakData
        ∧ (fetchAllData st r₁ r₂ r₃ r₄).1.slackStatus = st.slackStatus
        ∧ (fetchAllData st r₁ r₂ r₃ r₄).2.isSome = true))
    ∧ (∀ a b c d, r₁ = .ok a → r₂ = .ok b → r₃ = .ok c → r₄ = .ok d →
        fetchAllData st r₁ r₂ r₃ r₄
          = ({ dashboardData := some a, analyticsData := some b,
               streakData := some c, slackStatus := some d,
               loading := false }, none)) := by
  constructor
  · intro h
    cases r₁ <;> cases r₂ <;> cases r₃ <;> cases r₄ <;>
      simp_all [fetchAllData, promiseAll4]
  · rintro a b c d rfl rfl rfl rfl
    simp [fetchAllData, promiseAll4]

/-- C1 witness: a concrete failed refresh leaves the concrete prior state
untouched and reports the error; a concrete fully successful refresh
replaces all four slices. -/
theorem fetchAllData_all_or_nothing_witness :
    ((@fetchAllData String Nat Nat Nat Nat dashStart
        (.error "network") (.ok 2) (.ok 3) (.ok 4)).1.dashboardData
          = dashStart.dashboardData
      ∧ (@fetchAllData String Nat Nat Nat Nat dashStart
          (.error "network") (.ok 2) (.ok 3) (.ok 4)).1.analyticsData
            = dashStart.analyticsData
      ∧ (@fetchAllData String Nat Nat Nat Nat dashStart
          (.error "network") (.ok 2) (.ok 3) (.ok 4)).1.streakData
            = dashStart.streakData
      ∧ (@fetchAllData String Nat Nat Nat Nat dashStart
          (.error "network") (.ok 2) (.ok 3) (.ok 4)).1.slackStatus
            = dashStart.slackStatus
      ∧ (@fetchAllData String Nat Nat Nat Nat dashStart
          (.error "network") (.ok 2) (.ok 3) (.ok 4)).2.isSome = true)
    ∧ @fetchAllData String Nat Nat Nat Nat dashStart
        (.ok 1) (.ok 2) (.ok 3) (.ok 4)
          = ({ dashboardData := some 1, analyticsData := some 2,
               streakData := some 3, slackStatus := some 4,
               loading := false }, none) :=
  ⟨(fetchAllData_all_or_nothing dashStart
      (.error "network") (.ok 2) (.ok 3) (.ok 4)).1 (Or.inl ⟨"network", rfl⟩),
   (fetchAllData_all_or_nothing dashStart
      (.ok 1) (.ok 2) (.ok 3) (.ok 4)).2 1 2 3 4 rfl rfl rfl rfl⟩

/-! ## C8: reminder tick fires exactly the matching reminders -/

lemma reminderLoop_eq_filter_map (h m : Nat) (rs : List Reminder) :
    reminderLoop h m rs
      = (rs.filter (fun r => timeMatches r h m)).map mkReminderCall := by
  induction rs with
  | nil => rfl
  | cons r rest ih =>
    by_cases hr : timeMatches r h m <;>
      simp [reminderLoop, List.filter_cons, hr, ih]

lemma reminderLoop_countP (h m : Nat) (hid : String) (rs : List Reminder) :
    (reminderLoop h m rs).countP (fun c => c.2.2 == some hid)
      = rs.countP (fun r => timeMatches r h m && r.habit_id == hid) := by
  induction rs with
  | nil => rfl
  | cons r rest ih =>
    by_cases hr : timeMatches r h m <;>
      by_cases hi : r.habit_id = hid <;>
        simp [reminderLoop, List.countP_cons, mkReminderCall, hr, hi, ih]

/-- C8: on a tick at local time `h:m`, the gateway invocations are exactly
one `('Habit Reminder', 'Time to work on: ' + name, tag = habit_id)` call
per pending reminder whose `reminder_time` matches `h:m`; in particular,
for any habit id, the number of gateway calls tagged with it equals the
number of matching pending reminders carrying it, so non-matching
reminders fire nothing. -/
theorem checkReminders_fires_matching (rs : List Reminder) (h m : Nat)
    (env : NotifEnv) (hid : String) :
    (checkReminders (.ok rs) h m env).gatewayCalls
        = (rs.filter (fun r => timeMatches r h m)).map mkReminderCall
    ∧ ((checkReminders (.ok rs) h m env).gatewayCalls.countP
          (fun c => c.2.2 == some hid))
        = rs.countP (fun r => timeMatches r h m && r.habit_id == hid) := by
  constructor
  · simp [checkReminders, reminderLoop_eq_filter_map]
  · simp [checkReminders, reminderLoop_countP]

/-! ## Chart helper lemmas -/

lemma le_foldl_max (l : List ℚ) : ∀ a : ℚ, a ≤ l.foldl max a := by
  induction l with
  | nil => intro a; simp
  | cons x xs ih =>
    intro a
    calc a ≤ max a x := le_max_left a x
    _ ≤ xs.foldl max (max a x) := ih (max a x)
    _ = (x :: xs).foldl max a := by simp

lemma mem_le_foldl_max (l : List ℚ) :
    ∀ (a x : ℚ), x ∈ l → x ≤ l.foldl max a := by
  induction l with
  | nil => intro a x hx; simp at hx
  | cons y ys ih =>
    intro a x hx
    rcases List.mem_cons.mp hx with rfl | hx
    · calc x ≤ max a x := le_max_right a x
      _ ≤ ys.foldl max (max a x) := le_foldl_max ys (max a x)
      _ = (x :: ys).foldl max a := by simp
    · calc x ≤ ys.foldl max (max a y) := ih (max a y) x hx
      _ = (y :: ys).foldl max a := by simp

lemma foldl_max_le (l : List ℚ) (a b : ℚ) (ha : a ≤ b)
    (hl : ∀ x ∈ l, x ≤ b) : l.foldl max a ≤ b := by
  induction l generalizing a with
  | nil => simpa using ha
  | cons y ys ih =>
    simp only [List.foldl_cons]
    exact ih (max a y) (max_le ha (hl y (List.mem_cons_self y ys)))
      (fun x hx => hl x (List.mem_cons_of_mem y hx))

lemma foldl_min_le (l : List ℚ) : ∀ a : ℚ, l.foldl min a ≤ a := by
  induction l with
  | nil => intro a; simp
  | cons x xs ih =>
    intro a
    calc (x :: xs).foldl min a = xs.foldl min (min a x) := by simp
    _ ≤ min a x := ih (min a x)
    _ ≤ a := min_le_left a x

lemma foldl_min_le_mem (l : List ℚ) :
    ∀ (a x : ℚ), x ∈ l → l.foldl min a ≤ x := by
  induction l with
  | nil => intro a x hx; simp at hx
  | cons y ys ih =>
    intro a x hx
    rcases List.mem_cons.mp hx with rfl | hx
    · calc (x :: ys).foldl min a = ys.foldl min (min a x) := by simp
      _ ≤ min a x := foldl_min_le ys (min a x)
      _ ≤ x := min_le_right a x
    · calc (y :: ys).foldl min a = ys.foldl min (min a y) := by simp
      _ ≤ x := ih (min a y) x hx

lemma le_foldl_min (l : List ℚ) (a b : ℚ) (ha : b ≤ a)
    (hl : ∀ x ∈ l, b ≤ x) : b ≤ l.foldl min a := by
  induction l generalizing a with
  | nil => simpa using ha
  | cons y ys ih =>
    simp only [List.foldl_cons]
    exact ih (min a y) (le_min ha (hl y (List.mem_cons_self y ys)))
      (fun x hx => hl x (List.mem_cons_of_mem y hx))

lemma chartMaxRate_eq (d : DayPoint) (ds : List DayPoint) :
    chartMaxRate d ds
      = (ds.map (fun p => p.completion_rate)).foldl max d.completion_rate := by
  simp [chartMaxRate, List.foldl_map]

lemma chartMinRate_eq (d : DayPoint) (ds : List DayPoint) :
    chartMinRate d ds
      = (ds.map (fun p => p.completion_rate)).foldl min d.completion_rate := by
  simp [chartMinRate, List.foldl_map]

lemma le_chartMaxRate (d : DayPoint) (ds : List DayPoint) (p : DayPoint)
    (hp : p ∈ d :: ds) : p.completion_rate ≤ chartMaxRate d ds := by
  rw [chartMaxRate_eq]
  rcases List.mem_cons.mp hp with rfl | hp
  · exact le_foldl_max _ _
  · exact mem_le_foldl_max _ _ _ (List.mem_map_of_mem _ hp)

lemma chartMinRate_le (d : DayPoint) (ds : List DayPoint) (p : DayPoint)
    (hp : p ∈ d :: ds) : chartMinRate d ds ≤ p.completion_rate := by
  rw [chartMinRate_eq]
  rcases List.mem_cons.mp hp with rfl | hp
  · exact foldl_min_le _ _
  · exact foldl_min_le_mem _ _ _ (List.mem_map_of_mem _ hp)

lemma chartMaxRate_flat (d : DayPoint) (ds : List DayPoint) (c : ℚ)
    (h : ∀ p ∈ d :: ds, p.completion_rate = c) : chartMaxRate d ds = c := by
  refine le_antisymm ?_ ?_
  · rw [chartMaxRate_eq]
    refine foldl_max_le _ _ _ (le_of_eq (h d (List.mem_cons_self d ds))) ?_
    intro x hx
    rcases List.mem_map.mp hx with ⟨p, hp, rfl⟩
    exact le_of_eq (h p (List.mem_cons_of_mem d hp))
  · have hd := le_chartMaxRate d ds d (List.mem_cons_self d ds)
    rwa [h d (List.mem_cons_self d ds)] at hd

lemma chartMinRate_flat (d : DayPoint) (ds : List DayPoint) (c : ℚ)
    (h : ∀ p ∈ d :: ds, p.completion_rate = c) : chartMinRate d ds = c := by
  refine le_antisymm ?_ ?_
  · have hd := chartMinRate_le d ds d (List.mem_cons_self d ds)
    rwa [h d (List.mem_cons_self d ds)] at hd
  · rw [chartMinRate_eq]
    refine le_foldl_min _ _ _ (le_of_eq (h d (List.mem_cons_self d ds)).symm) ?_
    intro x hx
    rcases List.mem_map.mp hx with ⟨p, hp, rfl⟩
    exact le_of_eq (h p (List.mem_cons_of_mem d hp)).symm

lemma mem_of_mem_takeLast {α : Type} {a : α} {n : Nat} {l : List α}
    (h : a ∈ takeLast n l) : a ∈ l := by
  unfold takeLast at h
  exact List.drop_subset _ _ h

/-! ## C4: rendered bar heights -/

def cxP0 : DayPoint := { date := "2024-01-01", completion_rate := 0 }
def cxP50 : DayPoint := { date := "2024-01-02", completion_rate := 50 }
def cxP100 : DayPoint := { date := "2024-01-03", completion_rate := 100 }

/-- C4 counterexample: on the series with rates 0, 50, 100 (max > min),
the middle entry is rendered with height 50, whereas the claimed formula
`5 + (rate - min)/(max - min) * 95` gives 52.5 at rate 50. -/
theorem analyticsChart_height_counterexample :
    analyticsChart [cxP0, cxP50, cxP100]
        = .bars [{ height := 5, color := "#EF4444" },
                 { height := 50, color := "#EF4444" },
                 { height := 100, color := "#10B981" }]
    ∧ (50 : ℚ) ≠ 5 + ((50 : ℚ) - 0) / (100 - 0) * 95 := by
  constructor
  · norm_num [analyticsChart, cxP0, cxP50, cxP100, takeLast, chartBarOf,
      chartRange, chartMinRate, chartMaxRate, barColor, min_def, max_def]
  · norm_num

/-- C4 amended: for a non-empty series whose maximum rate exceeds its
minimum, each of the last 7 rendered entries receives a bar height equal
to `max(((rate - min)/(max - min)) * 100, 5)`, a value lying in the
interval `[5, 100]`. -/
theorem analyticsChart_height_amended (d : DayPoint) (ds : List DayPoint)
    (h : chartMinRate d ds < chartMaxRate d ds) :
    analyticsChart (d :: ds)
      = .bars ((takeLast 7 (d :: ds)).map
          (chartBarOf (chartMinRate d ds)
            (chartMaxRate d ds - chartMinRate d ds)))
    ∧ ∀ day ∈ takeLast 7 (d :: ds),
        5 ≤ (chartBarOf (chartMinRate d ds)
              (chartMaxRate d ds - chartMinRate d ds) day).height
        ∧ (chartBarOf (chartMinRate d ds)
              (chartMaxRate d ds - chartMinRate d ds) day).height ≤ 100 := by
  have hne : chartMaxRate d ds - chartMinRate d ds ≠ 0 :=
    sub_ne_zero.mpr (ne_of_gt h)
  constructor
  · simp [analyticsChart, chartRange, hne]
  · intro day hday
    have hmem : day ∈ d :: ds := mem_of_mem_takeLast hday
    have h₁ : chartMinRate d ds ≤ day.completion_rate :=
      chartMinRate_le d ds day hmem
    have h₂ : day.completion_rate ≤ chartMaxRate d ds :=
      le_chartMaxRate d ds day hmem
    constructor
    · exact le_max_right _ _
    · simp only [chartBarOf]
      have hq : (day.completion_rate - chartMinRate d ds)
          / (chartMaxRate d ds - chartMinRate d ds) ≤ 1 :=
        div_le_one_of_le₀ (by linarith) (by linarith)
      have h100 : (day.completion_rate - chartMinRate d ds)
          / (chartMaxRate d ds - chartMinRate d ds) * 100 ≤ 100 := by linarith
      exact max_le h100 (by norm_num)

/-- C4 amended, witness: the concrete 0/50/100 series. -/
theorem analyticsChart_height_amended_witness :
    analyticsChart [cxP0, cxP50, cxP100]
      = .bars ((takeLast 7 [cxP0, cxP50, cxP100]).map
          (chartBarOf (chartMinRate cxP0 [cxP50, cxP100])
            (chartMaxRate cxP0 [cxP50, cxP100]
              - chartMinRate cxP0 [cxP50, cxP100])))
    ∧ ∀ day ∈ takeLast 7 [cxP0, cxP50, cxP100],
        5 ≤ (chartBarOf (chartMinRate cxP0 [cxP50, cxP100])
              (chartMaxRate cxP0 [cxP50, cxP100]
                - chartMinRate cxP0 [cxP50, cxP100]) day).height
        ∧ (chartBarOf (chartMinRate cxP0 [cxP50, cxP100])
              (chartMaxRate cxP0 [cxP50, cxP100]
                - chartMinRate cxP0 [cxP50, cxP100]) day).height ≤ 100 :=
  analyticsChart_height_amended cxP0 [cxP50, cxP100]
    (by norm_num [chartMinRate, chartMaxRate, cxP0, cxP50, cxP100,
      min_def, max_def])

/-! ## C9: the normalizer is total on degenerate inputs -/

def flatP1 : DayPoint := { date := "2024-01-01", completion_rate := 50 }
def flatP2 : DayPoint := { date := "2024-01-02", completion_rate := 50 }

/-- C9: the normalizer is total on degenerate inputs — the empty series
yields the explicit no-data result, and any flat series (all rates equal,
so max = min) renders each of its last 7 entries as a bar of equal
minimum height 5; heights are exact rationals, never undefined. -/
theorem analyticsChart_degenerate :
    analyticsChart [] = ChartResult.noData
    ∧ ∀ (d : DayPoint) (ds : List DayPoint) (c : ℚ),
        (∀ p ∈ d :: ds, p.completion_rate = c) →
        analyticsChart (d :: ds)
          = .bars ((takeLast 7 (d :: ds)).map
              (fun _ => { height := 5, color := barColor c })) := by
  refine ⟨rfl, ?_⟩
  intro d ds c hflat
  have hmax := chartMaxRate_flat d ds c hflat
  have hmin := chartMinRate_flat d ds c hflat
  have hrange : chartRange d ds = 1 := by simp [chartRange, hmax, hmin]
  simp only [analyticsChart, hrange, hmin]
  congr 1
  refine List.map_congr_left ?_
  intro day hday
  have hd : day.completion_rate = c := hflat day (mem_of_mem_takeLast hday)
  simp [chartBarOf, hd]

/-- C9 witness: the empty series and the concrete flat series
`[{rate: 50}, {rate: 50}]`, whose two bars both have height 5. -/
theorem analyticsChart_degenerate_witness :
    analyticsChart [] = ChartResult.noData
    ∧ analyticsChart [flatP1, flatP2]
        = .bars ((takeLast 7 [flatP1, flatP2]).map
            (fun _ => { height := 5, color := barColor 50 })) :=
  ⟨analyticsChart_degenerate.1,
   analyticsChart_degenerate.2 flatP1 [flatP2] 50 (by
     intro p hp
     simp only [List.mem_cons, List.mem_singleton] at hp
     rcases hp with rfl | rfl | h
     · rfl
     · rfl
     · simp at h)⟩

end GoalGrid
